import Mathlib

/-!
Shallow embedding of the transactor repository (github.com/metalfm/transactor).

Core under verification:
- `driver/sql/trm/trm.go` : the transaction executor `impl[T].InTx`, which
  begins a transaction, binds the resource, invokes the callback, and
  finalizes with commit or rollback, wrapping each failure with a stage label.
- `internal/example/svc/repo_user.go`, `repo_order.go`, `adapter.go` : the
  transactable resources and their `WithTx` binding factory methods.

Go errors built by `errors.New` / `fmt.Errorf("label: %w", err)` are modelled
by the inductive `Err`; `errors.Is` by `errorsIs`; the `database/sql` `Tx`
finalize guard (a committed or rolled-back `Tx` refuses further finalize
calls with `ErrTxDone`, without reaching the driver) by `TxState`,
`txCommit`, `txRollback`. Outcomes of the external world (begin / commit /
rollback results, the fresh handle's identity) are oracle inputs in `World`;
the caller's unit of work is a function to `Option Err` (`none` = nil error).
Method receivers are never written to by any method body in the source, so
each method returns its receiver unchanged where the claim is about the
receiver's state after the call.
-/

namespace Transactor

/-- Go error values as produced in this repository: a base error
(`errors.New(msg)`) or a wrapping error (`fmt.Errorf("label: %w", cause)`). -/
inductive Err where
  | base (msg : String)
  | wrap (label : String) (cause : Err)
deriving DecidableEq, Repr

/-- The `Error()` message of an error: `fmt.Errorf("label: %w", cause)`
renders as `label ++ ": " ++ cause.Error()`. -/
def Err.message : Err → String
  | .base m => m
  | .wrap l c => l ++ ": " ++ Err.message c

/-- Go `errors.Is(err, target)`: true when `err` equals `target` or some
error in `err`'s unwrap chain equals `target`. -/
def errorsIs : Err → Err → Bool
  | .base m, t => decide (Err.base m = t)
  | .wrap l c, t => decide (Err.wrap l c = t) || errorsIs c t

/-- The `database/sql` sentinel `ErrTxDone`. -/
def errTxDone : Err := .base "sql: transaction has already been committed or rolled back"

/-- State of a `database/sql` `Tx` handle: the `done` guard flag, plus
counters of finalize calls that actually reached the driver. -/
structure TxState where
  done : Bool
  commits : Nat
  rollbacks : Nat
deriving DecidableEq, Repr

/-- The state of a freshly begun transaction handle. -/
def TxState.new : TxState := ⟨false, 0, 0⟩

/-- `database/sql` `Tx.Commit`: if the handle is already finalized, return
`ErrTxDone` without touching the driver; otherwise mark it done, issue the
driver-level commit, and return the driver's outcome (`commitErr`). -/
def txCommit (commitErr : Option Err) (s : TxState) : Option Err × TxState :=
  if s.done then (some errTxDone, s)
  else (commitErr, { done := true, commits := s.commits + 1, rollbacks := s.rollbacks })

/-- `database/sql` `Tx.Rollback`: if the handle is already finalized, return
`ErrTxDone` without touching the driver; otherwise mark it done, issue the
driver-level rollback, and return the driver's outcome (`rollbackErr`). -/
def txRollback (rollbackErr : Option Err) (s : TxState) : Option Err × TxState :=
  if s.done then (some errTxDone, s)
  else (rollbackErr, { done := true, commits := s.commits, rollbacks := s.rollbacks + 1 })

/-- Oracle for one invocation: the outcome of `db.BeginTx` (`none` =
success), the identity of the fresh transaction handle, and the driver-level
outcomes of commit and rollback should they be issued. -/
structure World where
  beginErr : Option Err
  txId : Nat
  commitErr : Option Err
  rollbackErr : Option Err
deriving DecidableEq, Repr

/-- The `withTx[T]` interface of `trm.go`: `WithTx(tx Transaction) T`
produces a transaction-bound copy of the resource. Transaction handles are
identified by their `World.txId`. -/
class WithTx (T : Type) where
  withTx : T → Nat → T

/-- The executor `impl[T]` of `trm.go`: a connection handle (`db *sql.DB`,
modelled by its identity) and the unbound resource (`wt withTx[T]`). -/
structure Impl (T : Type) where
  db : Nat
  wt : T
deriving DecidableEq, Repr

/-- The constructor `New` of `trm.go`. -/
def New {T : Type} (db : Nat) (wt : T) : Impl T := ⟨db, wt⟩

/-- Observable record of one `InTx` invocation: the returned error (`none` =
nil), the resource the callback received (`none` when the callback was never
invoked, hence the resource never bound), and the driver-level finalize
counts. -/
structure Trace (T : Type) where
  result : Option Err
  callbackArg : Option T
  driverCommits : Nat
  driverRollbacks : Nat
deriving DecidableEq, Repr

/-- `impl[T].InTx` of `trm.go`, lines 21-42, returning the invocation's
trace together with the receiver after the call (the body assigns to no
receiver field, so the receiver comes back as it went in):

1. `tx, err := slf.db.BeginTx(ctx, nil)`; on error return
   `fmt.Errorf("begin tx: %w", err)`.
2. `defer tx.Rollback()` — runs on every later exit path.
3. `err = fn(slf.wt.WithTx(tx))`; on error return
   `fmt.Errorf("trm callback: %w", err)` (deferred rollback then reaches the
   driver, its outcome discarded).
4. `err = tx.Commit()`; on error return `fmt.Errorf("commit tx: %w", err)`;
   otherwise return nil. Either way the deferred rollback then fires against
   an already finalized handle and is a driver-level no-op. -/
def InTx {T : Type} [WithTx T] (slf : Impl T) (w : World) (fn : T → Option Err) :
    Trace T × Impl T :=
  match w.beginErr with
  | some e => (⟨some (.wrap "begin tx" e), none, 0, 0⟩, slf)
  | none =>
    let bound := WithTx.withTx slf.wt w.txId
    match fn bound with
    | some e =>
      let s1 := (txRollback w.rollbackErr TxState.new).2
      (⟨some (.wrap "trm callback" e), some bound, s1.commits, s1.rollbacks⟩, slf)
    | none =>
      let p := txCommit w.commitErr TxState.new
      let s2 := (txRollback w.rollbackErr p.2).2
      match p.1 with
      | some e => (⟨some (.wrap "commit tx" e), some bound, s2.commits, s2.rollbacks⟩, slf)
      | none => (⟨none, some bound, s2.commits, s2.rollbacks⟩, slf)

/-- Query target held by a repository: the plain connection (`*sql.DB`) or a
transaction handle (`trm.Transaction`), i.e. the two implementations of the
`trm.Query` interface that appear in the source. -/
inductive Query where
  | db
  | tx (h : Nat)
deriving DecidableEq, Repr

/-- `svc.RepoUser` of `repo_user.go`: holds a `trm.Query`. -/
structure RepoUser where
  q : Query
deriving DecidableEq, Repr

/-- The constructor `NewRepoUser`. -/
def NewRepoUser (q : Query) : RepoUser := ⟨q⟩

/-- `RepoUser.WithTx`: `return &RepoUser{tx}`. The pair is (the fresh bound
instance, the receiver after the call); the body assigns to no receiver
field, so the receiver comes back as it went in. -/
def RepoUser.withTx (slf : RepoUser) (tx : Nat) : RepoUser × RepoUser :=
  (⟨.tx tx⟩, slf)

/-- `svc.RepoOrder` of `repo_order.go`: holds a `trm.Query`. -/
structure RepoOrder where
  q : Query
deriving DecidableEq, Repr

/-- The constructor `NewRepoOrder`. -/
def NewRepoOrder (q : Query) : RepoOrder := ⟨q⟩

/-- `RepoOrder.WithTx`: `return &RepoOrder{tx}`, as for `RepoUser.withTx`. -/
def RepoOrder.withTx (slf : RepoOrder) (tx : Nat) : RepoOrder × RepoOrder :=
  (⟨.tx tx⟩, slf)

/-- `svc.Adapter` of `adapter.go`: aggregates a `RepoUser` and a
`RepoOrder`. -/
structure Adapter where
  repoUser : RepoUser
  repoOrder : RepoOrder
deriving DecidableEq, Repr

/-- The constructor `NewAdapter`. -/
def NewAdapter (repoUser : RepoUser) (repoOrder : RepoOrder) : Adapter :=
  ⟨repoUser, repoOrder⟩

/-- `Adapter.WithTx`: builds a new `Adapter` from
`slf.repoUser.WithTx(tx)` and `slf.repoOrder.WithTx(tx)`; pair as for
`RepoUser.withTx`. -/
def Adapter.withTx (slf : Adapter) (tx : Nat) : Adapter × Adapter :=
  (⟨(slf.repoUser.withTx tx).1, (slf.repoOrder.withTx tx).1⟩, slf)

/-- The `mockWithTx` resource of `trm_test.go`: `WithTx` returns the
receiver itself. -/
structure MockWithTx where
deriving DecidableEq, Repr

instance : WithTx MockWithTx := ⟨fun m _ => m⟩

end Transactor

namespace Transactor

theorem errorsIs_self (e : Err) : errorsIs e e = true := by
  cases e <;> simp [errorsIs]

theorem errorsIs_wrap (l : String) (e : Err) : errorsIs (Err.wrap l e) e = true := by
  simp [errorsIs, errorsIs_self]

/-- C1: `InTx` returns nil exactly when begin, the callback and commit all
succeed, and every invocation ends in exactly one of the four terminal
outcomes (begin-failed, callback-failed-rolled-back, commit-failed,
success), whose guards partition the input space. -/
theorem inTx_four_outcomes {T : Type} [WithTx T] (slf : Impl T) (w : World)
    (fn : T → Option Err) :
    ((InTx slf w fn).1.result = none ↔
      (w.beginErr = none ∧ fn (WithTx.withTx slf.wt w.txId) = none ∧ w.commitErr = none)) ∧
    ((∃ e, w.beginErr = some e ∧
        (InTx slf w fn).1.result = some (Err.wrap "begin tx" e)) ∨
     (w.beginErr = none ∧ ∃ e, fn (WithTx.withTx slf.wt w.txId) = some e ∧
        (InTx slf w fn).1.result = some (Err.wrap "trm callback" e)) ∨
     (w.beginErr = none ∧ fn (WithTx.withTx slf.wt w.txId) = none ∧
        ∃ e, w.commitErr = some e ∧
        (InTx slf w fn).1.result = some (Err.wrap "commit tx" e)) ∨
     (w.beginErr = none ∧ fn (WithTx.withTx slf.wt w.txId) = none ∧ w.commitErr = none ∧
        (InTx slf w fn).1.result = none)) := by
  cases hb : w.beginErr with
  | some e =>
    refine ⟨by simp [InTx, hb], Or.inl ⟨e, rfl, by simp [InTx, hb]⟩⟩
  | none =>
    cases hf : fn (WithTx.withTx slf.wt w.txId) with
    | some e =>
      refine ⟨by simp [InTx, hb, hf], Or.inr (Or.inl ⟨rfl, e, rfl, by simp [InTx, hb, hf]⟩)⟩
    | none =>
      cases hc : w.commitErr with
      | some e =>
        refine ⟨by simp [InTx, hb, hf, hc, txCommit, txRollback, TxState.new],
          Or.inr (Or.inr (Or.inl ⟨rfl, rfl, e, rfl,
            by simp [InTx, hb, hf, hc, txCommit, txRollback, TxState.new]⟩))⟩
      | none =>
        refine ⟨by simp [InTx, hb, hf, hc, txCommit, txRollback, TxState.new],
          Or.inr (Or.inr (Or.inr ⟨rfl, rfl, rfl,
            by simp [InTx, hb, hf, hc, txCommit, txRollback, TxState.new]⟩))⟩

/-- C1 witness: on a world where everything succeeds, the result is nil. -/
theorem inTx_four_outcomes_witness :
    (InTx (New 0 MockWithTx.mk) ⟨none, 0, none, none⟩
      (fun _ => (none : Option Err))).1.result = none :=
  (inTx_four_outcomes (New 0 MockWithTx.mk) ⟨none, 0, none, none⟩
    (fun _ => (none : Option Err))).1.mpr ⟨rfl, rfl, rfl⟩

/-- C2: whenever begin succeeds, exactly one finalize action reaches the
driver before `InTx` returns: one commit and no rollback, or one rollback
and no commit, on every path. -/
theorem inTx_exactly_one_finalize {T : Type} [WithTx T] (slf : Impl T) (w : World)
    (fn : T → Option Err) (hb : w.beginErr = none) :
    (InTx slf w fn).1.driverCommits + (InTx slf w fn).1.driverRollbacks = 1 ∧
    (((InTx slf w fn).1.driverCommits = 1 ∧ (InTx slf w fn).1.driverRollbacks = 0) ∨
     ((InTx slf w fn).1.driverCommits = 0 ∧ (InTx slf w fn).1.driverRollbacks = 1)) := by
  cases hf : fn (WithTx.withTx slf.wt w.txId) with
  | some e =>
    simp [InTx, hb, hf, txCommit, txRollback, TxState.new]
  | none =>
    cases hc : w.commitErr with
    | some e => simp [InTx, hb, hf, hc, txCommit, txRollback, TxState.new]
    | none => simp [InTx, hb, hf, hc, txCommit, txRollback, TxState.new]

/-- C2 witness: on the success path, one driver-level finalize in total. -/
theorem inTx_exactly_one_finalize_witness :
    (InTx (New 0 MockWithTx.mk) ⟨none, 0, none, none⟩
        (fun _ => (none : Option Err))).1.driverCommits +
      (InTx (New 0 MockWithTx.mk) ⟨none, 0, none, none⟩
        (fun _ => (none : Option Err))).1.driverRollbacks = 1 :=
  (inTx_exactly_one_finalize (New 0 MockWithTx.mk) ⟨none, 0, none, none⟩
    (fun _ => (none : Option Err)) rfl).1

/-- C3: when begin succeeds and the callback fails with `e`, a rollback
reaches the driver, `InTx` returns an error wrapping `e`, and the returned
error does not depend on the rollback's own outcome. -/
theorem inTx_callback_failure_rollback {T : Type} [WithTx T] (slf : Impl T) (w : World)
    (fn : T → Option Err) (e : Err) (hb : w.beginErr = none)
    (hf : fn (WithTx.withTx slf.wt w.txId) = some e) :
    (InTx slf w fn).1.driverRollbacks = 1 ∧
    (InTx slf w fn).1.result = some (Err.wrap "trm callback" e) ∧
    (∀ r, (InTx slf w fn).1.result = some r → errorsIs r e = true) ∧
    (∀ re₁ re₂, (InTx slf { w with rollbackErr := re₁ } fn).1.result =
                (InTx slf { w with rollbackErr := re₂ } fn).1.result) := by
  have hres : (InTx slf w fn).1.result = some (Err.wrap "trm callback" e) := by
    simp [InTx, hb, hf]
  refine ⟨by simp [InTx, hb, hf, txRollback, TxState.new], hres, ?_, ?_⟩
  · intro r hr
    rw [hres] at hr
    obtain rfl := Option.some.inj hr
    exact errorsIs_wrap _ _
  · intro re₁ re₂
    simp [InTx, hb, hf]

/-- C3 witness: the scenario of `TestRollbackOnError` in `trm_test.go`. -/
theorem inTx_callback_failure_rollback_witness :
    (InTx (New 0 MockWithTx.mk) ⟨none, 0, none, none⟩
      (fun _ => some (Err.base "err"))).1.driverRollbacks = 1 :=
  (inTx_callback_failure_rollback (New 0 MockWithTx.mk) ⟨none, 0, none, none⟩
    (fun _ => some (Err.base "err")) (Err.base "err") rfl rfl).1

/-- C4: when begin fails with `e`, `InTx` returns an error wrapping `e`, the
callback is never invoked and the resource never bound, and no finalize
action reaches the driver. -/
theorem inTx_begin_failure {T : Type} [WithTx T] (slf : Impl T) (w : World)
    (fn : T → Option Err) (e : Err) (hb : w.beginErr = some e) :
    (InTx slf w fn).1.result = some (Err.wrap "begin tx" e) ∧
    (∀ r, (InTx slf w fn).1.result = some r → errorsIs r e = true) ∧
    (InTx slf w fn).1.callbackArg = none ∧
    (InTx slf w fn).1.driverCommits = 0 ∧
    (InTx slf w fn).1.driverRollbacks = 0 := by
  have hres : (InTx slf w fn).1.result = some (Err.wrap "begin tx" e) := by
    simp [InTx, hb]
  refine ⟨hres, ?_, by simp [InTx, hb], by simp [InTx, hb], by simp [InTx, hb]⟩
  intro r hr
  rw [hres] at hr
  obtain rfl := Option.some.inj hr
  exact errorsIs_wrap _ _

/-- C4 witness: the scenario of `TestBeginTxError` in `trm_test.go`. -/
theorem inTx_begin_failure_witness :
    (InTx (New 0 MockWithTx.mk) ⟨some (Err.base "err"), 0, none, none⟩
      (fun _ => (none : Option Err))).1.result =
        some (Err.wrap "begin tx" (Err.base "err")) :=
  (inTx_begin_failure (New 0 MockWithTx.mk) ⟨some (Err.base "err"), 0, none, none⟩
    (fun _ => (none : Option Err)) (Err.base "err") rfl).1

/-- C5: when begin succeeds, the callback returns nil and commit fails with
`e`, `InTx` returns an error wrapping `e` with stage label "commit tx",
exactly one commit reaches the driver and no rollback does. -/
theorem inTx_commit_failure {T : Type} [WithTx T] (slf : Impl T) (w : World)
    (fn : T → Option Err) (e : Err) (hb : w.beginErr = none)
    (hf : fn (WithTx.withTx slf.wt w.txId) = none) (hc : w.commitErr = some e) :
    (InTx slf w fn).1.result = some (Err.wrap "commit tx" e) ∧
    (Err.wrap "commit tx" e).message = "commit tx" ++ ": " ++ e.message ∧
    (InTx slf w fn).1.driverCommits = 1 ∧
    (InTx slf w fn).1.driverRollbacks = 0 := by
  refine ⟨by simp [InTx, hb, hf, hc, txCommit, txRollback, TxState.new], rfl,
    by simp [InTx, hb, hf, hc, txCommit, txRollback, TxState.new],
    by simp [InTx, hb, hf, hc, txCommit, txRollback, TxState.new]⟩

/-- C5 witness: the scenario of `TestCommitError` in `trm_test.go`. -/
theorem inTx_commit_failure_witness :
    (InTx (New 0 MockWithTx.mk) ⟨none, 0, some (Err.base "err"), none⟩
      (fun _ => (none : Option Err))).1.result =
        some (Err.wrap "commit tx" (Err.base "err")) :=
  (inTx_commit_failure (New 0 MockWithTx.mk) ⟨none, 0, some (Err.base "err"), none⟩
    (fun _ => (none : Option Err)) (Err.base "err") rfl rfl rfl).1

/-- C6: cause preservation: whichever stage fails with `e` (begin, callback
or commit), the error `InTx` returns satisfies `errors.Is` against `e`. -/
theorem inTx_error_identity {T : Type} [WithTx T] (slf : Impl T) (w : World)
    (fn : T → Option Err) (e : Err) :
    (w.beginErr = some e →
      ∃ r, (InTx slf w fn).1.result = some r ∧ errorsIs r e = true) ∧
    (w.beginErr = none → fn (WithTx.withTx slf.wt w.txId) = some e →
      ∃ r, (InTx slf w fn).1.result = some r ∧ errorsIs r e = true) ∧
    (w.beginErr = none → fn (WithTx.withTx slf.wt w.txId) = none → w.commitErr = some e →
      ∃ r, (InTx slf w fn).1.result = some r ∧ errorsIs r e = true) := by
  refine ⟨?_, ?_, ?_⟩
  · intro hb
    exact ⟨Err.wrap "begin tx" e, by simp [InTx, hb], errorsIs_wrap _ _⟩
  · intro hb hf
    exact ⟨Err.wrap "trm callback" e, by simp [InTx, hb, hf], errorsIs_wrap _ _⟩
  · intro hb hf hc
    exact ⟨Err.wrap "commit tx" e,
      by simp [InTx, hb, hf, hc, txCommit, txRollback, TxState.new], errorsIs_wrap _ _⟩

/-- C6 witness: a callback failure's cause round-trips through the wrap. -/
theorem inTx_error_identity_witness :
    ∃ r, (InTx (New 0 MockWithTx.mk) ⟨none, 0, none, none⟩
      (fun _ => some (Err.base "err"))).1.result = some r ∧
      errorsIs r (Err.base "err") = true :=
  (inTx_error_identity (New 0 MockWithTx.mk) ⟨none, 0, none, none⟩
    (fun _ => some (Err.base "err")) (Err.base "err")).2.1 rfl rfl

/-- C7 counterexample: on a callback failure with cause "err", the returned
error is wrapped with label "trm callback", not "callback": its message is
"trm callback: err", which is not "callback"-prefixed. -/
theorem inTx_stage_label_counterexample :
    (InTx (New 0 MockWithTx.mk) ⟨none, 0, none, none⟩
      (fun _ => some (Err.base "err"))).1.result =
        some (Err.wrap "trm callback" (Err.base "err")) ∧
    (InTx (New 0 MockWithTx.mk) ⟨none, 0, none, none⟩
      (fun _ => some (Err.base "err"))).1.result ≠
        some (Err.wrap "callback" (Err.base "err")) ∧
    (Err.wrap "trm callback" (Err.base "err")).message ≠ "callback" ++ ": " ++ "err" := by
  refine ⟨rfl, by decide, by decide⟩

/-- C7 amended: every error returned by `InTx` is wrapped with the stage
label of the failing step — "begin tx" for begin failure, "trm callback"
for callback failure, "commit tx" for commit failure — as the wrapper
prefix of the returned error's message. -/
theorem inTx_stage_labels {T : Type} [WithTx T] (slf : Impl T) (w : World)
    (fn : T → Option Err) :
    (∀ e, w.beginErr = some e →
      (InTx slf w fn).1.result = some (Err.wrap "begin tx" e) ∧
      (Err.wrap "begin tx" e).message = "begin tx" ++ ": " ++ e.message) ∧
    (∀ e, w.beginErr = none → fn (WithTx.withTx slf.wt w.txId) = some e →
      (InTx slf w fn).1.result = some (Err.wrap "trm callback" e) ∧
      (Err.wrap "trm callback" e).message = "trm callback" ++ ": " ++ e.message) ∧
    (∀ e, w.beginErr = none → fn (WithTx.withTx slf.wt w.txId) = none →
        w.commitErr = some e →
      (InTx slf w fn).1.result = some (Err.wrap "commit tx" e) ∧
      (Err.wrap "commit tx" e).message = "commit tx" ++ ": " ++ e.message) := by
  refine ⟨?_, ?_, ?_⟩
  · intro e hb
    exact ⟨by simp [InTx, hb], rfl⟩
  · intro e hb hf
    exact ⟨by simp [InTx, hb, hf], rfl⟩
  · intro e hb hf hc
    exact ⟨by simp [InTx, hb, hf, hc, txCommit, txRollback, TxState.new], rfl⟩

/-- C7 witness: the begin-failure stage label at a concrete input. -/
theorem inTx_stage_labels_witness :
    (InTx (New 0 MockWithTx.mk) ⟨some (Err.base "e0"), 0, none, none⟩
      (fun _ => (none : Option Err))).1.result =
        some (Err.wrap "begin tx" (Err.base "e0")) ∧
    (Err.wrap "begin tx" (Err.base "e0")).message =
      "begin tx" ++ ": " ++ (Err.base "e0").message :=
  (inTx_stage_labels (New 0 MockWithTx.mk) ⟨some (Err.base "e0"), 0, none, none⟩
    (fun _ => (none : Option Err))).1 (Err.base "e0") rfl

/-- C8: binding each resource to a transaction handle yields a fresh
instance targeting that handle, while the original instance (the method's
receiver) is returned unchanged; in particular an instance constructed over
the plain connection still targets the plain connection afterwards. -/
theorem withTx_binding_immutable (tx : Nat) (q : Query) (a : Adapter) :
    ((NewRepoUser q).withTx tx).1.q = Query.tx tx ∧
    ((NewRepoUser q).withTx tx).2 = NewRepoUser q ∧
    ((NewRepoUser Query.db).withTx tx).2.q = Query.db ∧
    ((NewRepoOrder q).withTx tx).1.q = Query.tx tx ∧
    ((NewRepoOrder q).withTx tx).2 = NewRepoOrder q ∧
    ((NewRepoOrder Query.db).withTx tx).2.q = Query.db ∧
    (a.withTx tx).1.repoUser.q = Query.tx tx ∧
    (a.withTx tx).1.repoOrder.q = Query.tx tx ∧
    (a.withTx tx).2 = a :=
  ⟨rfl, rfl, rfl, rfl, rfl, rfl, rfl, rfl, rfl⟩

/-- C9: binding distributes over composition: the adapter bound to `tx` is
exactly the adapter assembled from its constituents each bound to `tx`. -/
theorem adapter_withTx_compositional (a : Adapter) (tx : Nat) :
    (a.withTx tx).1 =
      NewAdapter ((a.repoUser.withTx tx).1) ((a.repoOrder.withTx tx).1) :=
  rfl

/-- C10: `InTx` leaves the executor untouched — the receiver comes back with
the same connection handle and the same unbound resource — and whenever
begin succeeds, the callback receives the original unbound resource bound to
this invocation's fresh transaction handle. -/
theorem inTx_executor_frame {T : Type} [WithTx T] (slf : Impl T) (w : World)
    (fn : T → Option Err) :
    (InTx slf w fn).2 = slf ∧
    (InTx slf w fn).2.db = slf.db ∧
    (InTx slf w fn).2.wt = slf.wt ∧
    (w.beginErr = none →
      (InTx slf w fn).1.callbackArg = some (WithTx.withTx slf.wt w.txId)) := by
  have hrecv : (InTx slf w fn).2 = slf := by
    cases hb : w.beginErr with
    | some e => simp [InTx, hb]
    | none =>
      cases hf : fn (WithTx.withTx slf.wt w.txId) with
      | some e => simp [InTx, hb, hf]
      | none =>
        cases hc : w.commitErr with
        | some e => simp [InTx, hb, hf, hc, txCommit, txRollback, TxState.new]
        | none => simp [InTx, hb, hf, hc, txCommit, txRollback, TxState.new]
  refine ⟨hrecv, by rw [hrecv], by rw [hrecv], ?_⟩
  intro hb
  cases hf : fn (WithTx.withTx slf.wt w.txId) with
  | some e => simp [InTx, hb, hf]
  | none =>
    cases hc : w.commitErr with
    | some e => simp [InTx, hb, hf, hc, txCommit, txRollback, TxState.new]
    | none => simp [InTx, hb, hf, hc, txCommit, txRollback, TxState.new]

/-- C10 witness: a concrete invocation returns the executor unchanged and
hands the callback the bound resource. -/
theorem inTx_executor_frame_witness :
    (InTx (New 0 MockWithTx.mk) ⟨none, 7, none, none⟩
      (fun _ => (none : Option Err))).1.callbackArg =
        some (WithTx.withTx MockWithTx.mk 7) :=
  (inTx_executor_frame (New 0 MockWithTx.mk) ⟨none, 7, none, none⟩
    (fun _ => (none : Option Err))).2.2.2 rfl

end Transactor
